import Mathlib

/-
Shallow embedding of the Base Swiper API (a Node/Express service that
periodically fetches FEATURED token listings from the Zora explore API,
normalizes them, stores them in a MongoDB collection and serves them over
REST).  JavaScript strings are modelled as lists of characters
(UTF-16 code units collapse to Lean chars; the addresses and category tags
handled by this code are ASCII), JavaScript `undefined`/`null` as `Option`,
`Date` values as their source string (for parsed dates) or a millisecond
timestamp (for `Date.now()` / `new Date()`), and the MongoDB `tokens`
collection as a list of token documents in insertion order.  Code that can
throw is modelled in `Except`, with the thrown message on the error side.
-/

/-- JavaScript strings, modelled as lists of characters. -/
abbrev Str := List Char

deriving instance DecidableEq for Except

/-- Models `String.prototype.toLowerCase()`; the addresses this code
lower-cases are ASCII hex strings, for which per-character ASCII lowering
is the exact behavior. -/
def jsToLower (s : Str) : Str :=
  s.map Char.toLower

/-- Models `String.prototype.trim()`: strip whitespace from both ends. -/
def jsTrim (s : Str) : Str :=
  ((s.dropWhile Char.isWhitespace).reverse.dropWhile Char.isWhitespace).reverse

/-- The FEATURED category tag (the only list type the refresh pipeline
processes). -/
def featured : Str := "FEATURED".toList

/- ----------------------------------------------------------------------
Data model, from the mongoose schema in the Token model file and from the
shape of the objects built by `ZoraService.transformTokens`.
---------------------------------------------------------------------- -/

/-- Nested `previewImage` shape of the Token model. -/
structure PreviewImage where
  blurhash : Option Str := none
  medium : Option Str := none
  small : Option Str := none
deriving DecidableEq, Repr

/-- Nested social-account entry of the Token model. -/
structure SocialAccount where
  username : Option Str := none
  displayName : Option Str := none
  id : Option Str := none
deriving DecidableEq, Repr

/-- Nested `socialAccounts` shape of the Token model. -/
structure SocialAccounts where
  instagram : Option SocialAccount := none
  tiktok : Option SocialAccount := none
  twitter : Option SocialAccount := none
  farcaster : Option SocialAccount := none
deriving DecidableEq, Repr

/-- Nested `creatorProfile` shape of the Token model. -/
structure CreatorProfile where
  id : Option Str := none
  handle : Option Str := none
  avatar : Option PreviewImage := none
  socialAccounts : Option SocialAccounts := none
  creatorCoin : Option Str := none
deriving DecidableEq, Repr

/-- Nested `poolCurrencyToken` shape of the Token model. -/
structure PoolCurrencyToken where
  address : Option Str := none
  name : Option Str := none
  decimals : Option Int := none
deriving DecidableEq, Repr

/-- Nested `tokenPrice` shape of the Token model. -/
structure TokenPrice where
  priceInUsdc : Option Str := none
  currencyAddress : Option Str := none
  priceInPoolToken : Option Str := none
deriving DecidableEq, Repr

/-- Nested `mediaContent` shape of the Token model. -/
structure MediaContent where
  mimeType : Option Str := none
  originalUri : Option Str := none
  previewImage : Option PreviewImage := none
deriving DecidableEq, Repr

/-- Nested `uniswapV4PoolKey` shape of the Token model. -/
structure UniswapV4PoolKey where
  token0Address : Option Str := none
  token1Address : Option Str := none
  fee : Option Int := none
  tickSpacing : Option Int := none
  hookAddress : Option Str := none
deriving DecidableEq, Repr

/-- A stored token document, with the fields `transformTokens` writes.
`createdAt` keeps the source string of the parsed date; `lastUpdated` is a
millisecond timestamp. -/
structure Token where
  zoraId : Option Str := none
  name : Option Str := none
  description : Option Str := none
  address : Option Str := none
  symbol : Option Str := none
  totalSupply : Option Str := none
  totalVolume : Option Str := none
  volume24h : Option Str := none
  createdAt : Option Str := none
  creatorAddress : Option Str := none
  poolCurrencyToken : Option PoolCurrencyToken := none
  tokenPrice : Option TokenPrice := none
  marketCap : Option Str := none
  marketCapDelta24h : Option Str := none
  chainId : Int := 8453
  tokenUri : Option Str := none
  platformReferrerAddress : Option Str := none
  payoutRecipientAddress : Option Str := none
  creatorProfile : Option CreatorProfile := none
  mediaContent : Option MediaContent := none
  uniqueHolders : Option Int := none
  uniswapV4PoolKey : Option UniswapV4PoolKey := none
  listType : Str := featured
  lastUpdated : Nat := 0
  isActive : Bool := true
deriving DecidableEq, Repr

/- ----------------------------------------------------------------------
Upstream (Zora) response shapes, from the access paths in
`ZoraService.transformTokens` and `fetchExploreTokens`.
---------------------------------------------------------------------- -/

/-- A raw upstream `node` record; every field may be absent. -/
structure Node where
  id : Option Str := none
  name : Option Str := none
  description : Option Str := none
  address : Option Str := none
  symbol : Option Str := none
  totalSupply : Option Str := none
  totalVolume : Option Str := none
  volume24h : Option Str := none
  createdAt : Option Str := none
  creatorAddress : Option Str := none
  poolCurrencyToken : Option PoolCurrencyToken := none
  tokenPrice : Option TokenPrice := none
  marketCap : Option Str := none
  marketCapDelta24h : Option Str := none
  chainId : Option Int := none
  tokenUri : Option Str := none
  platformReferrerAddress : Option Str := none
  payoutRecipientAddress : Option Str := none
  creatorProfile : Option CreatorProfile := none
  mediaContent : Option MediaContent := none
  uniqueHolders : Option Int := none
  uniswapV4PoolKey : Option UniswapV4PoolKey := none
deriving DecidableEq, Repr

/-- An upstream edge; its `node` may be absent (in JavaScript, accessing a
property of the absent node throws a TypeError). -/
structure Edge where
  node : Option Node := none
deriving DecidableEq, Repr

/-- Upstream `pageInfo` shape. -/
structure PageInfo where
  hasNextPage : Option Bool := none
  endCursor : Option Str := none
deriving DecidableEq, Repr

/-- Upstream `exploreList` shape. -/
structure ExploreList where
  edges : Option (List Edge) := none
  pageInfo : Option PageInfo := none
deriving DecidableEq, Repr

/-- The upstream response body. -/
structure ZoraResponse where
  exploreList : Option ExploreList := none
deriving DecidableEq, Repr

/-- The message of the JavaScript TypeError raised when `edge.node` is
absent and `node.id` is read. -/
def jsTypeError : Str := "TypeError: Cannot read properties of undefined".toList

/-- The body of the map callback in `ZoraService.transformTokens`, for an
edge whose `node` is present: one normalized token per raw node.
Mirrors the object literal field by field; `node.address?.toLowerCase()`
becomes `Option.map jsToLower`, `node.createdAt ? new Date(...) : null`
keeps the source string when it is truthy, and `node.chainId || 8453`
defaults falsy (absent or zero) chain ids. -/
def transformNode (node : Node) (listType : Str) (now : Nat) : Token :=
  { zoraId := node.id
    name := node.name
    description := node.description
    address := node.address.map jsToLower
    symbol := node.symbol
    totalSupply := node.totalSupply
    totalVolume := node.totalVolume
    volume24h := node.volume24h
    createdAt :=
      match node.createdAt with
      | some s => if s.isEmpty then none else some s
      | none => none
    creatorAddress := node.creatorAddress
    poolCurrencyToken := node.poolCurrencyToken
    tokenPrice := node.tokenPrice
    marketCap := node.marketCap
    marketCapDelta24h := node.marketCapDelta24h
    chainId :=
      match node.chainId with
      | some c => if c = 0 then 8453 else c
      | none => 8453
    tokenUri := node.tokenUri
    platformReferrerAddress := node.platformReferrerAddress
    payoutRecipientAddress := node.payoutRecipientAddress
    creatorProfile := node.creatorProfile
    mediaContent := node.mediaContent
    uniqueHolders := node.uniqueHolders
    uniswapV4PoolKey := node.uniswapV4PoolKey
    listType := listType
    lastUpdated := now
    isActive := true }

/-- Models `ZoraService.transformTokens(zoraResponse, listType)`.  The
guard `!zoraResponse?.exploreList?.edges` returns `[]`; otherwise each edge
is mapped.  An edge without a `node` makes the JavaScript callback throw
(`const node = edge.node; node.id`), modelled as the error side. -/
def transformTokens (zoraResponse : Option ZoraResponse) (listType : Str)
    (now : Nat) : Except Str (List Token) :=
  match zoraResponse with
  | none => .ok []
  | some r =>
    match r.exploreList with
    | none => .ok []
    | some el =>
      match el.edges with
      | none => .ok []
      | some edges =>
        edges.mapM fun edge =>
          match edge.node with
          | none => .error jsTypeError
          | some node => .ok (transformNode node listType now)

/-- The query parameters `ZoraService.fetchExploreTokens` sends upstream. -/
structure ExploreParams where
  listType : Str
  count : Int
  cursor : Option Str
deriving DecidableEq, Repr

/-- Models the request construction of
`ZoraService.fetchExploreTokens(listType, count, cursor)`: the `params`
object sent to GET `/explore`.  `count: Math.min(count, 100)` caps the
requested count; the cursor is attached only when truthy. -/
def fetchExploreTokensParams (listType : Str) (count : Int)
    (cursor : Option Str) : ExploreParams :=
  { listType := listType
    count := min count 100
    cursor :=
      match cursor with
      | some c => if c.isEmpty then none else some c
      | none => none }

/- ----------------------------------------------------------------------
TokenService operations over the stored collection.
---------------------------------------------------------------------- -/

/-- Result object of `TokenService.replaceFeaturedTokens`. -/
structure ReplaceResult where
  success : Bool
  message : Option Str := none
  deleted : Option Nat := none
  inserted : Option Nat := none
  total : Option Nat := none
deriving DecidableEq, Repr

/-- Models `TokenService.replaceFeaturedTokens(tokens)` acting on the
stored collection.  A missing or empty token list returns a failure result
without touching the collection; otherwise every document with
`listType: "FEATURED"` is deleted (`deleteMany`) and the new tokens are
inserted (`insertMany` appends). -/
def replaceFeaturedTokens (tokens : Option (List Token))
    (store : List Token) : List Token × ReplaceResult :=
  match tokens with
  | none => (store, { success := false, message := some "No tokens to store".toList })
  | some ts =>
    if ts.length = 0 then
      (store, { success := false, message := some "No tokens to store".toList })
    else
      let afterDelete := store.filter fun t => !(t.listType == featured)
      let deletedCount := (store.filter fun t => t.listType == featured).length
      (afterDelete ++ ts,
        { success := true
          deleted := some deletedCount
          inserted := some ts.length
          total := some ts.length })

/-- The find filter of `getTokensByListType` (and of `countDocuments`):
matching list type and active. -/
def tokenMatches (listType : Str) (t : Token) : Bool :=
  t.listType == listType && t.isActive

/-- Models `.sort(\x7b lastUpdated: -1 \x7d)`: stable sort, newest first. -/
def sortByLastUpdatedDesc (l : List Token) : List Token :=
  l.mergeSort fun a b => Nat.ble b.lastUpdated a.lastUpdated

/-- Pagination envelope of `TokenService.getTokensByListType`. -/
structure Pagination where
  page : Nat
  limit : Nat
  total : Nat
  pages : Nat
  hasNext : Bool
  hasPrev : Bool
deriving DecidableEq, Repr

/-- Page of tokens plus pagination envelope. -/
structure PagedTokens where
  tokens : List Token
  pagination : Pagination
deriving DecidableEq, Repr

/-- Models `TokenService.getTokensByListType(listType, page, limit)`:
filter by list type and active, sort by `lastUpdated` descending, skip
`(page - 1) * limit`, take `limit`; `total` counts all matching documents,
`pages` is `Math.ceil(total / limit)`, `hasNext` is `skip + limit < total`
and `hasPrev` is `page > 1`. -/
def getTokensByListType (listType : Str) (page limit : Nat)
    (store : List Token) : PagedTokens :=
  let skip := (page - 1) * limit
  let matching := store.filter (tokenMatches listType)
  let total := matching.length
  { tokens := ((sortByLastUpdatedDesc matching).drop skip).take limit
    pagination :=
      { page := page
        limit := limit
        total := total
        pages := (total + limit - 1) / limit
        hasNext := decide (skip + limit < total)
        hasPrev := decide (page > 1) } }

/-- Models `TokenService.getTokenByAddress(address)`: `findOne` on the
lower-cased address among active documents (first match in collection
order). -/
def getTokenByAddress (address : Str) (store : List Token) : Option Token :=
  store.find? fun t => t.address == some (jsToLower address) && t.isActive

/- ----------------------------------------------------------------------
Search endpoint validation (TokenController.searchTokens and the simple
single-file server variant of GET /api/tokens/search).
---------------------------------------------------------------------- -/

/-- Observable outcome of a search request: the HTTP status sent and
whether the store search operation was invoked. -/
structure SearchOutcome where
  status : Nat
  storeSearched : Bool
deriving DecidableEq, Repr

/-- Models the validation in `TokenController.searchTokens`:
`if (!query || query.trim().length < 2)` responds 400 before
`tokenService.searchTokens` is called; a missing or empty (falsy) query
string is rejected, otherwise the trimmed length is checked. -/
def controllerSearchTokens (q : Option Str) : SearchOutcome :=
  match q with
  | none => { status := 400, storeSearched := false }
  | some s =>
    if s.isEmpty then { status := 400, storeSearched := false }
    else if (jsTrim s).length < 2 then { status := 400, storeSearched := false }
    else { status := 200, storeSearched := true }

/-- Models the validation in the simple-server GET /api/tokens/search
route: `if (!query || query.length < 2)` responds 400 before the token
list is searched. -/
def simpleServerSearch (q : Option Str) : SearchOutcome :=
  match q with
  | none => { status := 400, storeSearched := false }
  | some s =>
    if s.isEmpty then { status := 400, storeSearched := false }
    else if s.length < 2 then { status := 400, storeSearched := false }
    else { status := 200, storeSearched := true }

/- ----------------------------------------------------------------------
DataRefreshJob: the stateful refresh process.
---------------------------------------------------------------------- -/

/-- The cooldown window of `runRefresh`: 2 minutes in milliseconds. -/
def cooldownMs : Nat := 2 * 60 * 1000

/-- The mutable state of the singleton `DataRefreshJob` together with the
stored collection it mutates.  `isRunning` is set by `start()` and cleared
by `stop()`; `lastRun` holds the start timestamp of the last attempted
refresh (`null` before the first one). -/
structure JobState where
  isRunning : Bool
  lastRun : Option Nat
  store : List Token
deriving DecidableEq, Repr

/-- The guard of `runRefresh`:
`this.isRunning && this.lastRun && Date.now() - this.lastRun < 2 * 60 * 1000`.
A `lastRun` of 0 is falsy in JavaScript; a clock that ran backwards gives a
negative difference in JavaScript and a truncated zero here, both below the
cooldown. -/
def cooldownActive (now : Nat) (s : JobState) : Bool :=
  s.isRunning &&
    (match s.lastRun with
     | some lr => !(lr == 0) && Nat.blt (now - lr) cooldownMs
     | none => false)

/-- Observable outcome of one `runRefresh` (or force variant) call:
the state afterwards, whether the upstream client was contacted
(`fetchExploreTokens` invoked), and the returned value or thrown error
(`.ok none` is the bare `return` of the skip path). -/
structure RefreshOutcome where
  state : JobState
  fetched : Bool
  result : Except Str (Option ReplaceResult)
deriving DecidableEq, Repr

/-- Models `DataRefreshJob.runRefresh()`.  The upstream fetch outcome is an
input (`.error` for a rejected `fetchExploreTokens`).  If the cooldown
guard fires the call returns immediately with no side effects; otherwise
`lastRun` is set to the current time before any network step, then
fetch, transform and replace run, with any thrown error re-thrown after
the catch block logs it. -/
def runRefresh (now : Nat) (fetch : Except Str ZoraResponse)
    (s : JobState) : RefreshOutcome :=
  if cooldownActive now s then
    { state := s, fetched := false, result := .ok none }
  else
    let s1 : JobState := { s with lastRun := some now }
    match fetch with
    | .error e => { state := s1, fetched := true, result := .error e }
    | .ok zoraData =>
      match transformTokens (some zoraData) featured now with
      | .error e => { state := s1, fetched := true, result := .error e }
      | .ok transformed =>
        let res := replaceFeaturedTokens (some transformed) s1.store
        { state := { s1 with store := res.1 }
          fetched := true
          result := .ok (some res.2) }

/-- Models `DataRefreshJob.forceRefresh()`: it just awaits
`this.runRefresh()`. -/
def forceRefresh (now : Nat) (fetch : Except Str ZoraResponse)
    (s : JobState) : RefreshOutcome :=
  runRefresh now fetch s

/-- Models `DataRefreshJob.refreshFeaturedTokens()`: fetch, transform and
replace directly, with no cooldown check and no update of `lastRun`. -/
def refreshFeaturedTokens (now : Nat) (fetch : Except Str ZoraResponse)
    (s : JobState) : RefreshOutcome :=
  match fetch with
  | .error e => { state := s, fetched := true, result := .error e }
  | .ok zoraData =>
    match transformTokens (some zoraData) featured now with
    | .error e => { state := s, fetched := true, result := .error e }
    | .ok transformed =>
      let res := replaceFeaturedTokens (some transformed) s.store
      { state := { s with store := res.1 }
        fetched := true
        result := .ok (some res.2) }

/- ----------------------------------------------------------------------
Concrete sample data used by witnesses and counterexamples.
---------------------------------------------------------------------- -/

/-- A sample upstream node. -/
def sampleNode : Node :=
  { id := some "tok-1".toList
    name := some "Sample".toList
    address := some "0xAbC".toList }

/-- A sample upstream response carrying one well-formed edge. -/
def sampleResp : ZoraResponse :=
  { exploreList := some { edges := some [{ node := some sampleNode }], pageInfo := none } }

/-- An upstream response with an edge lacking its node. -/
def nodelessResp : ZoraResponse :=
  { exploreList := some { edges := some [{ node := none }], pageInfo := none } }

/-- An upstream response with zero edges. -/
def emptyEdgesResp : ZoraResponse :=
  { exploreList := some { edges := some [], pageInfo := none } }

/-- A stored FEATURED token from a previous cycle. -/
def oldTok : Token :=
  { zoraId := some "old-1".toList
    name := some "Old".toList
    address := some "0xold".toList
    listType := featured
    lastUpdated := 500
    isActive := true }

/-- A freshly transformed FEATURED token. -/
def newTok : Token :=
  { zoraId := some "new-1".toList
    name := some "New".toList
    address := some "0xnew".toList
    listType := featured
    lastUpdated := 2000
    isActive := true }

/-- A job state in which the scheduler was never started. -/
def stoppedState : JobState :=
  { isRunning := false, lastRun := none, store := [] }

/-- A running job state with no previous run. -/
def runningState : JobState :=
  { isRunning := true, lastRun := none, store := [] }

/-- A running job state whose previous run started at time 1000, holding
one old FEATURED token. -/
def recentRunState : JobState :=
  { isRunning := true, lastRun := some 1000, store := [oldTok] }

/-- A store of 45 active FEATURED tokens. -/
def store45 : List Token := List.replicate 45 oldTok

/-- A raw node with every field absent: a maximally malformed record. -/
def emptyNode : Node := {}

/-- An error message for fetch-failure scenarios. -/
def boomMsg : Str := "Failed to fetch FEATURED tokens: timeout".toList

/- ----------------------------------------------------------------------
Helper lemmas shared by the claim theorems.
---------------------------------------------------------------------- -/

/-- When the cooldown guard fires, `runRefresh` returns immediately with
no side effects and without contacting the upstream client. -/
theorem runRefresh_skip (now : Nat) (f : Except Str ZoraResponse)
    (s : JobState) (hc : cooldownActive now s = true) :
    runRefresh now f s = { state := s, fetched := false, result := .ok none } := by
  simp [runRefresh, hc]

/-- When the cooldown guard does not fire, `runRefresh` contacts the
upstream client, stamps `lastRun` with the start time before any network
step, and leaves `isRunning` alone. -/
theorem runRefresh_exec_state (now : Nat) (f : Except Str ZoraResponse)
    (s : JobState) (hc : cooldownActive now s = false) :
    (runRefresh now f s).state.isRunning = s.isRunning ∧
    (runRefresh now f s).state.lastRun = some now ∧
    (runRefresh now f s).fetched = true := by
  cases f with
  | error e => simp [runRefresh, hc]
  | ok z =>
    cases h : transformTokens (some z) featured now with
    | error e => simp [runRefresh, hc, h]
    | ok ts => simp [runRefresh, hc, h]

/- ----------------------------------------------------------------------
Claim C1.
---------------------------------------------------------------------- -/

/-- Claim C1 counterexample: the cooldown guard also requires
`this.isRunning`, so on a job that was never started (or was stopped) two
`runRefresh` calls one millisecond apart both contact the upstream client
and both run the replace step. -/
theorem runRefresh_cooldown_cex :
    1001 - 1000 < cooldownMs ∧
    (runRefresh 1000 (.ok sampleResp) stoppedState).fetched = true ∧
    (runRefresh 1001 (.ok sampleResp)
        (runRefresh 1000 (.ok sampleResp) stoppedState).state).fetched = true := by
  decide

/-- Claim C1 (amended): when the job is running (`start()` has been called
and not `stop()`) and the first `runRefresh` call actually executed at a
nonzero start time, a second `runRefresh` call starting less than the
2-minute cooldown later is a no-op: it does not contact the upstream
client, returns undefined, and leaves the state (store and `lastRun`)
untouched. -/
theorem runRefresh_cooldown_second_call_noop
    (s : JobState) (t1 t2 : Nat) (f1 f2 : Except Str ZoraResponse)
    (hrun : s.isRunning = true) (ht1 : 0 < t1) (hlt : t2 - t1 < cooldownMs)
    (hfetched : (runRefresh t1 f1 s).fetched = true) :
    runRefresh t2 f2 (runRefresh t1 f1 s).state =
      { state := (runRefresh t1 f1 s).state, fetched := false, result := .ok none } := by
  have hc1 : cooldownActive t1 s = false := by
    cases hb : cooldownActive t1 s with
    | false => rfl
    | true => rw [runRefresh_skip t1 f1 s hb] at hfetched; simp at hfetched
  obtain ⟨hr, hl, _⟩ := runRefresh_exec_state t1 f1 s hc1
  have hcool : cooldownActive t2 (runRefresh t1 f1 s).state = true := by
    simp only [cooldownActive, hr, hrun, hl, Bool.true_and]
    simp only [Bool.and_eq_true, Bool.not_eq_true', beq_eq_false_iff_ne, ne_eq]
    exact ⟨by omega, by simpa [Nat.blt_eq] using hlt⟩
  exact runRefresh_skip t2 f2 _ hcool

/-- Claim C1 witness: concrete instantiation of the amended theorem on a
running job with two calls one millisecond apart. -/
theorem runRefresh_cooldown_second_call_noop_witness :
    runRefresh 1001 (.ok sampleResp)
        (runRefresh 1000 (.ok sampleResp) runningState).state =
      { state := (runRefresh 1000 (.ok sampleResp) runningState).state,
        fetched := false, result := .ok none } :=
  runRefresh_cooldown_second_call_noop runningState 1000 1001 _ _ rfl
    (by decide) (by decide) (by decide)

/- ----------------------------------------------------------------------
Claim C2.
---------------------------------------------------------------------- -/

/-- Claim C2: in every refresh cycle that actually executes (the cooldown
guard does not fire) and whose upstream fetch fails, the cycle aborts
before the delete step: the stored collection is completely unchanged and
the error is re-thrown to the caller rather than swallowed. -/
theorem runRefresh_fetch_error_preserves_store
    (now : Nat) (e : Str) (s : JobState)
    (hc : cooldownActive now s = false) :
    (runRefresh now (.error e) s).state.store = s.store ∧
    (runRefresh now (.error e) s).result = .error e := by
  simp [runRefresh, hc]

/-- Claim C2 witness: a concrete failing fetch on a running job with one
stored token leaves the store untouched and surfaces the error. -/
theorem runRefresh_fetch_error_preserves_store_witness :
    cooldownActive 1000 { runningState with store := [oldTok] } = false ∧
    ((runRefresh 1000 (.error boomMsg) { runningState with store := [oldTok] }).state.store
        = ({ runningState with store := [oldTok] } : JobState).store ∧
     (runRefresh 1000 (.error boomMsg) { runningState with store := [oldTok] }).result
        = .error boomMsg) :=
  ⟨by decide, runRefresh_fetch_error_preserves_store 1000 boomMsg _ (by decide)⟩

/- ----------------------------------------------------------------------
Claim C3.
---------------------------------------------------------------------- -/

/-- Claim C3: for the FEATURED category (the one category the service has
a replace operation for), after a successful `replaceFeaturedTokens` with
a non-empty list of FEATURED active records, querying the category returns
exactly the newly inserted records: the matching partition of the store is
literally the new list (so never a mix of old and new), the reported total
equals the new count, and the returned page holding all of them is a
permutation (the sort-by-freshness reordering) of the new records. -/
theorem replaceFeaturedTokens_query_exact
    (store tokens : List Token) (hne : tokens ≠ [])
    (hall : ∀ t ∈ tokens, t.listType = featured ∧ t.isActive = true) :
    (replaceFeaturedTokens (some tokens) store).2.success = true ∧
    (replaceFeaturedTokens (some tokens) store).1.filter (tokenMatches featured) = tokens ∧
    (getTokensByListType featured 1 tokens.length
        (replaceFeaturedTokens (some tokens) store).1).pagination.total = tokens.length ∧
    (getTokensByListType featured 1 tokens.length
        (replaceFeaturedTokens (some tokens) store).1).tokens.Perm tokens := by
  have hlen : ¬ tokens.length = 0 := by simpa [List.length_eq_zero] using hne
  have hrepl : replaceFeaturedTokens (some tokens) store =
      ((store.filter fun t => !(t.listType == featured)) ++ tokens,
        { success := true
          deleted := some (store.filter fun t => t.listType == featured).length
          inserted := some tokens.length
          total := some tokens.length }) := by
    simp [replaceFeaturedTokens, hlen]
  have hfilter : ((store.filter fun t => !(t.listType == featured)) ++ tokens).filter
      (tokenMatches featured) = tokens := by
    rw [List.filter_append]
    have h1 : (store.filter fun t => !(t.listType == featured)).filter
        (tokenMatches featured) = [] := by
      rw [List.filter_eq_nil_iff]
      intro t ht
      rw [List.mem_filter] at ht
      simp only [Bool.not_eq_true'] at ht
      simp [tokenMatches, ht.2]
    have h2 : tokens.filter (tokenMatches featured) = tokens := by
      rw [List.filter_eq_self]
      intro t ht
      obtain ⟨h3, h4⟩ := hall t ht
      simp [tokenMatches, h3, h4]
    rw [h1, h2, List.nil_append]
  rw [hrepl]
  refine ⟨rfl, hfilter, ?_, ?_⟩
  · simp [getTokensByListType, hfilter]
  · simp only [getTokensByListType, hfilter]
    have hslen : (sortByLastUpdatedDesc tokens).length = tokens.length := by
      simp [sortByLastUpdatedDesc, List.length_mergeSort]
    simp only [Nat.sub_self, Nat.zero_mul, List.drop_zero]
    rw [← hslen, List.take_length]
    exact List.mergeSort_perm tokens _

/-- Claim C3 witness: replacing the single old FEATURED record with one
new record makes the category query return exactly the new record. -/
theorem replaceFeaturedTokens_query_exact_witness :
    ([newTok] : List Token) ≠ [] ∧
    ((replaceFeaturedTokens (some [newTok]) [oldTok]).2.success = true ∧
     (replaceFeaturedTokens (some [newTok]) [oldTok]).1.filter (tokenMatches featured) = [newTok] ∧
     (getTokensByListType featured 1 [newTok].length
         (replaceFeaturedTokens (some [newTok]) [oldTok]).1).pagination.total = [newTok].length ∧
     (getTokensByListType featured 1 [newTok].length
         (replaceFeaturedTokens (some [newTok]) [oldTok]).1).tokens.Perm [newTok]) :=
  ⟨by decide, replaceFeaturedTokens_query_exact [oldTok] [newTok] (by decide) (by decide)⟩

/- ----------------------------------------------------------------------
Claim C4.
---------------------------------------------------------------------- -/

/-- Claim C4 counterexample: `refreshFeaturedTokens` does not go through
`runRefresh`: on a running job whose previous run started 500 ms ago
(well inside the 2-minute cooldown) it still contacts the upstream client
and replaces the stored FEATURED records. -/
theorem refreshFeaturedTokens_bypasses_cooldown_cex :
    cooldownActive 1500 recentRunState = true ∧
    (refreshFeaturedTokens 1500 (.ok sampleResp) recentRunState).fetched = true ∧
    (refreshFeaturedTokens 1500 (.ok sampleResp) recentRunState).state.store
      ≠ recentRunState.store := by
  decide

/-- Claim C4 (amended): only `forceRefresh()` goes through the `runRefresh`
cooldown check (it is literally a delegation, so within the cooldown it
performs no fetch); the category-specific force variant
`refreshFeaturedTokens()` bypasses the cooldown entirely and always
contacts the upstream client. -/
theorem forceRefresh_cooldown_refreshFeatured_bypass
    (now : Nat) (f : Except Str ZoraResponse) (s : JobState) :
    forceRefresh now f s = runRefresh now f s ∧
    (cooldownActive now s = true → (forceRefresh now f s).fetched = false) ∧
    (refreshFeaturedTokens now f s).fetched = true := by
  refine ⟨rfl, fun hc => ?_, ?_⟩
  · rw [forceRefresh, runRefresh_skip now f s hc]
  · cases f with
    | error e => rfl
    | ok z =>
      cases h : transformTokens (some z) featured now with
      | error e => simp [refreshFeaturedTokens, h]
      | ok ts => simp [refreshFeaturedTokens, h]

/-- Claim C4 witness: concrete instantiation inside the cooldown window:
the delegating `forceRefresh` is skipped while `refreshFeaturedTokens`
still fetches. -/
theorem forceRefresh_cooldown_refreshFeatured_bypass_witness :
    cooldownActive 1500 recentRunState = true ∧
    forceRefresh 1500 (.ok sampleResp) recentRunState
      = runRefresh 1500 (.ok sampleResp) recentRunState ∧
    (forceRefresh 1500 (.ok sampleResp) recentRunState).fetched = false ∧
    (refreshFeaturedTokens 1500 (.ok sampleResp) recentRunState).fetched = true :=
  ⟨by decide,
   (forceRefresh_cooldown_refreshFeatured_bypass 1500 (.ok sampleResp) recentRunState).1,
   (forceRefresh_cooldown_refreshFeatured_bypass 1500 (.ok sampleResp) recentRunState).2.1
     (by decide),
   (forceRefresh_cooldown_refreshFeatured_bypass 1500 (.ok sampleResp) recentRunState).2.2⟩

/- ----------------------------------------------------------------------
Claim C5.
---------------------------------------------------------------------- -/

/-- Claim C5 counterexample: `transformTokens` is not total over every
upstream response: an edge that lacks its `node` object makes the map
callback read a property of `undefined`, which throws, so the whole batch
fails instead of the record being included with defaults. -/
theorem transformTokens_throws_on_missing_node_cex :
    transformTokens (some nodelessResp) featured 0 = .error jsTypeError := by
  decide

/-- Claim C5 (amended): for every upstream response in which each edge
carries a node object, `transformTokens` never throws and returns exactly
one normalized record per edge (output length equals edge-list length);
an individual record missing every mapped field (id, name, address, and
the rest) is still included, with absent/null defaults, the 8453 chain-id
default, the requested list type, the refresh timestamp and the active
flag, rather than being dropped or failing the cycle.  Only an edge whose
node object itself is absent throws. -/
theorem transformTokens_total_per_node
    (nodes : List Node) (lt : Str) (now : Nat) (pi : Option PageInfo) :
    transformTokens
        (some (ZoraResponse.mk (some (ExploreList.mk
          (some (nodes.map fun n => Edge.mk (some n))) pi)))) lt now
      = .ok (nodes.map fun n => transformNode n lt now) ∧
    (nodes.map fun n => transformNode n lt now).length = nodes.length ∧
    transformNode emptyNode lt now =
      { zoraId := none, name := none, description := none, address := none, symbol := none,
        totalSupply := none, totalVolume := none, volume24h := none, createdAt := none,
        creatorAddress := none, poolCurrencyToken := none, tokenPrice := none,
        marketCap := none, marketCapDelta24h := none, chainId := 8453, tokenUri := none,
        platformReferrerAddress := none, payoutRecipientAddress := none,
        creatorProfile := none, mediaContent := none, uniqueHolders := none,
        uniswapV4PoolKey := none, listType := lt, lastUpdated := now, isActive := true } := by
  refine ⟨?_, by simp, rfl⟩
  simp only [transformTokens]
  induction nodes with
  | nil => rfl
  | cons n ns ih =>
    simp only [List.map_cons, List.mapM_cons, ih]
    rfl

/- ----------------------------------------------------------------------
Claim C6.
---------------------------------------------------------------------- -/

/-- Claim C6: the upstream request is always built with a count clamped to
the upstream maximum of 100: the sent count is `Math.min(count, 100)`, it
never exceeds 100, and any caller-supplied count above the cap results in
exactly 100 being sent, never the raw value. -/
theorem fetchExploreTokens_count_clamped (lt : Str) (c : Int) (cur : Option Str) :
    (fetchExploreTokensParams lt c cur).count = min c 100 ∧
    (fetchExploreTokensParams lt c cur).count ≤ 100 ∧
    (100 < c → (fetchExploreTokensParams lt c cur).count = 100) := by
  refine ⟨rfl, min_le_right _ _, fun h => ?_⟩
  show min c 100 = 100
  exact min_eq_right h.le

/-- Claim C6 witness: requesting 500 sends exactly 100. -/
theorem fetchExploreTokens_count_clamped_witness :
    (100 : Int) < 500 ∧ (fetchExploreTokensParams featured 500 none).count = 100 :=
  ⟨by decide, (fetchExploreTokens_count_clamped featured 500 none).2.2 (by decide)⟩

/- ----------------------------------------------------------------------
Claim C7.
---------------------------------------------------------------------- -/

/-- Claim C7: address lookup is case-insensitive by construction: the
transform stores the contract address lower-cased, the lookup lower-cases
its argument so any two queries agreeing up to case return the same
record, and looking up a stored transformed token by its original address
in any casing finds exactly that record. -/
theorem address_lookup_case_insensitive
    (node : Node) (a : Str) (haddr : node.address = some a)
    (lt : Str) (now : Nat) (q1 q2 : Str) (hq : jsToLower q1 = jsToLower q2)
    (store : List Token) :
    (transformNode node lt now).address = some (jsToLower a) ∧
    getTokenByAddress q1 store = getTokenByAddress q2 store ∧
    (jsToLower q1 = jsToLower a →
      getTokenByAddress q1 [transformNode node lt now] = some (transformNode node lt now)) := by
  refine ⟨by simp [transformNode, haddr], by simp [getTokenByAddress, hq], fun hqa => ?_⟩
  simp [getTokenByAddress, List.find?, transformNode, haddr, hqa]

/-- Claim C7 witness: the node storing address `0xAbC` is stored as
`0xabc` and is found both under the all-caps and the all-lower query,
which also return the same result on an arbitrary store. -/
theorem address_lookup_case_insensitive_witness :
    sampleNode.address = some "0xAbC".toList ∧
    jsToLower "0XABC".toList = jsToLower "0xabc".toList ∧
    (transformNode sampleNode featured 7).address = some (jsToLower "0xAbC".toList) ∧
    getTokenByAddress "0XABC".toList [oldTok] = getTokenByAddress "0xabc".toList [oldTok] ∧
    getTokenByAddress "0XABC".toList [transformNode sampleNode featured 7]
      = some (transformNode sampleNode featured 7) :=
  ⟨rfl, by decide,
   (address_lookup_case_insensitive sampleNode "0xAbC".toList rfl featured 7
      "0XABC".toList "0xabc".toList (by decide) [oldTok]).1,
   (address_lookup_case_insensitive sampleNode "0xAbC".toList rfl featured 7
      "0XABC".toList "0xabc".toList (by decide) [oldTok]).2.1,
   (address_lookup_case_insensitive sampleNode "0xAbC".toList rfl featured 7
      "0XABC".toList "0xabc".toList (by decide) [oldTok]).2.2 (by decide)⟩

/- ----------------------------------------------------------------------
Claim C8.
---------------------------------------------------------------------- -/

/-- Claim C8: with exactly 45 stored active records for the FEATURED
category and limit 20, page 1 returns the first 20 records of the sorted
sequence with hasNext true and hasPrev false, and page 3 returns the
remaining records 41 to 45 (5 of them) with hasNext false and hasPrev
true. -/
theorem pagination_45_limit_20 (store : List Token)
    (h : (store.filter (tokenMatches featured)).length = 45) :
    (getTokensByListType featured 1 20 store).tokens =
      (sortByLastUpdatedDesc (store.filter (tokenMatches featured))).take 20 ∧
    (getTokensByListType featured 1 20 store).tokens.length = 20 ∧
    (getTokensByListType featured 1 20 store).pagination.hasNext = true ∧
    (getTokensByListType featured 1 20 store).pagination.hasPrev = false ∧
    (getTokensByListType featured 3 20 store).tokens =
      (sortByLastUpdatedDesc (store.filter (tokenMatches featured))).drop 40 ∧
    (getTokensByListType featured 3 20 store).tokens.length = 5 ∧
    (getTokensByListType featured 3 20 store).pagination.hasNext = false ∧
    (getTokensByListType featured 3 20 store).pagination.hasPrev = true := by
  have hs : (sortByLastUpdatedDesc (store.filter (tokenMatches featured))).length = 45 := by
    rw [sortByLastUpdatedDesc, List.length_mergeSort, h]
  refine ⟨?_, ?_, ?_, ?_, ?_, ?_, ?_, ?_⟩
  · simp [getTokensByListType]
  · simp [getTokensByListType, List.length_take, hs]
  · simp [getTokensByListType, h]
  · simp [getTokensByListType]
  · simp only [getTokensByListType]
    have h40 : ((3 : Nat) - 1) * 20 = 40 := rfl
    rw [h40]
    apply List.take_of_length_le
    rw [List.length_drop, hs]
    norm_num
  · simp [getTokensByListType, List.length_take, List.length_drop, hs]
  · simp [getTokensByListType, h]
  · simp [getTokensByListType]

/-- Claim C8 witness: a concrete store of 45 active FEATURED records. -/
theorem pagination_45_limit_20_witness :
    (store45.filter (tokenMatches featured)).length = 45 ∧
    ((getTokensByListType featured 1 20 store45).tokens =
      (sortByLastUpdatedDesc (store45.filter (tokenMatches featured))).take 20 ∧
    (getTokensByListType featured 1 20 store45).tokens.length = 20 ∧
    (getTokensByListType featured 1 20 store45).pagination.hasNext = true ∧
    (getTokensByListType featured 1 20 store45).pagination.hasPrev = false ∧
    (getTokensByListType featured 3 20 store45).tokens =
      (sortByLastUpdatedDesc (store45.filter (tokenMatches featured))).drop 40 ∧
    (getTokensByListType featured 3 20 store45).tokens.length = 5 ∧
    (getTokensByListType featured 3 20 store45).pagination.hasNext = false ∧
    (getTokensByListType featured 3 20 store45).pagination.hasPrev = true) :=
  ⟨by decide, pagination_45_limit_20 store45 (by decide)⟩

/- ----------------------------------------------------------------------
Claim C9.
---------------------------------------------------------------------- -/

/-- Trimming never lengthens a string. -/
theorem jsTrim_length_le (s : Str) : (jsTrim s).length ≤ s.length := by
  simp only [jsTrim, List.length_reverse]
  have h1 : ((s.dropWhile Char.isWhitespace).reverse.dropWhile Char.isWhitespace).length
      ≤ (s.dropWhile Char.isWhitespace).reverse.length :=
    (List.dropWhile_sublist _).length_le
  rw [List.length_reverse] at h1
  exact le_trans h1 (List.dropWhile_sublist _).length_le

/-- Claim C9: every search request whose query string is missing or
shorter than 2 characters is answered with HTTP 400 before the store
search operation is invoked, both in the controller (which checks the
trimmed length, never longer than the raw length) and in the simple
single-file server route. -/
theorem short_search_query_rejected (q : Option Str)
    (h : q = none ∨ ∃ s, q = some s ∧ s.length < 2) :
    (controllerSearchTokens q).status = 400 ∧
    (controllerSearchTokens q).storeSearched = false ∧
    (simpleServerSearch q).status = 400 ∧
    (simpleServerSearch q).storeSearched = false := by
  rcases h with h | ⟨s, rfl, hlen⟩
  · subst h; exact ⟨rfl, rfl, rfl, rfl⟩
  · have htrim : (jsTrim s).length < 2 := lt_of_le_of_lt (jsTrim_length_le s) hlen
    cases he : s.isEmpty <;>
      simp [controllerSearchTokens, simpleServerSearch, he, htrim, hlen]

/-- Claim C9 witness: a one-character query is rejected with 400 and the
store is never searched. -/
theorem short_search_query_rejected_witness :
    ((some "a".toList : Option Str) = none ∨
      ∃ s, (some "a".toList : Option Str) = some s ∧ s.length < 2) ∧
    ((controllerSearchTokens (some "a".toList)).status = 400 ∧
     (controllerSearchTokens (some "a".toList)).storeSearched = false ∧
     (simpleServerSearch (some "a".toList)).status = 400 ∧
     (simpleServerSearch (some "a".toList)).storeSearched = false) :=
  ⟨Or.inr ⟨"a".toList, rfl, by decide⟩,
   short_search_query_rejected (some "a".toList) (Or.inr ⟨"a".toList, rfl, by decide⟩)⟩

/- ----------------------------------------------------------------------
Claim C10.
---------------------------------------------------------------------- -/

/-- Claim C10: a replace with a missing or empty token list performs
neither the delete nor the insert step, returning a success-false result
with the store completely unchanged; hence a refresh cycle in which the
upstream returns zero records keeps every prior record instead of
emptying the category. -/
theorem empty_replace_is_noop (store : List Token) (now : Nat) (s : JobState)
    (hc : cooldownActive now s = false) :
    replaceFeaturedTokens none store =
      (store, { success := false, message := some "No tokens to store".toList }) ∧
    replaceFeaturedTokens (some []) store =
      (store, { success := false, message := some "No tokens to store".toList }) ∧
    (runRefresh now (.ok emptyEdgesResp) s).state.store = s.store ∧
    (runRefresh now (.ok emptyEdgesResp) s).result =
      .ok (some { success := false, message := some "No tokens to store".toList }) := by
  have ht : transformTokens (some emptyEdgesResp) featured now = .ok [] := rfl
  refine ⟨rfl, rfl, ?_, ?_⟩ <;> simp [runRefresh, hc, ht, replaceFeaturedTokens]

/-- Claim C10 witness: on a running job holding one FEATURED record, a
cycle whose upstream response has zero edges leaves that record in
place. -/
theorem empty_replace_is_noop_witness :
    cooldownActive 1000 { runningState with store := [oldTok] } = false ∧
    (replaceFeaturedTokens none [oldTok] =
      ([oldTok], { success := false, message := some "No tokens to store".toList }) ∧
     replaceFeaturedTokens (some []) [oldTok] =
      ([oldTok], { success := false, message := some "No tokens to store".toList }) ∧
     (runRefresh 1000 (.ok emptyEdgesResp)
        { runningState with store := [oldTok] }).state.store
       = ({ runningState with store := [oldTok] } : JobState).store ∧
     (runRefresh 1000 (.ok emptyEdgesResp)
        { runningState with store := [oldTok] }).result =
      .ok (some { success := false, message := some "No tokens to store".toList })) :=
  ⟨by decide, empty_replace_is_noop [oldTok] 1000 _ (by decide)⟩
